import Mathlib

/-!
Shallow embedding of the Robo AI Transcription Tool's non-rendering logic:
the session CRUD handlers, the transcription and metrics pipeline, and the
localStorage-backed state hook, translated from `src/App.tsx` and the
Gemini service module.  Remote calls, the ambient clock and the platform
APIs are passed in as explicit parameters; JavaScript exceptions are
modelled with `Except` / `Option`.
-/

/-- Drop leading whitespace characters from a character list. -/
def dropLeadingWs : List Char → List Char
  | [] => []
  | c :: cs => if c.isWhitespace then dropLeadingWs cs else c :: cs

/-- JavaScript `String.prototype.trim`: remove leading and trailing
whitespace.  Defined by structural recursion on the character list so that
concrete instances evaluate inside the kernel. -/
def jsTrim (s : String) : String :=
  String.mk ((dropLeadingWs (dropLeadingWs s.data).reverse).reverse)

/-- A saved transcript snapshot (interface `Session` in `App.tsx`). -/
structure Session where
  id : String
  name : String
  text : String
  date : String
deriving DecidableEq, Repr

/-- The structured counts returned by the metrics remote model
(`WordMetrics` in the Gemini service module). -/
structure WordMetrics where
  wordCount : Int
  characterCount : Int
  verbCount : Int
  nounCount : Int
  adjectiveCount : Int
  conjunctionCount : Int
  profanityCount : Int
deriving DecidableEq, Repr

/-- A finalized audio recording: its raw data and MIME type. -/
structure Blob where
  data : String
  type : String
deriving DecidableEq, Repr

/-- Outcome of the remote `generateContent` call made by `transcribeAudio`:
success with text, rejection with an `Error` carrying a message, or a
rejection with a non-`Error` value. -/
inductive TRemote where
  | ok (text : String)
  | errMsg (msg : String)
  | errUnknown
deriving DecidableEq, Repr

/-- `transcribeAudio` from the Gemini service module.  `apiKey` models
`process.env.API_KEY` (`none` = unset), `remote` the remote call's outcome.
`Except.error` models an exception escaping the function: only the missing
API key throws; a failing remote call is caught and turned into an
ordinary string result. -/
def transcribeAudio (apiKey : Option String) (remote : TRemote)
    (_base64Audio _mimeType _language : String) : Except String String :=
  match apiKey with
  | none => Except.error "API_KEY environment variable not set"
  | some _ =>
    match remote with
    | TRemote.ok t => Except.ok t
    | TRemote.errMsg m => Except.ok ("Transcription failed: " ++ m)
    | TRemote.errUnknown => Except.ok "An unknown error occurred during transcription."

/-- The mutable component state of `App` that the handlers under
verification read and write. -/
structure AppState where
  isRecording : Bool
  audioBlob : Option Blob
  audioUrl : String
  transcribedText : String
  isTranscribing : Bool
  targetLanguage : String
  sessionName : String
  savedSessions : List Session
  editingSessionId : Option String
  editingSessionName : String
  metrics : Option WordMetrics
  isAnalyzingMetrics : Bool
  showMetrics : Bool
  error : Option String
  copySuccess : String
deriving DecidableEq, Repr

/-- `runMetricsAnalysis` from `App.tsx`.  `mres` is the outcome of the
`analyzeTextMetrics` remote call (which the handler awaits inside a
try/catch).  The returned `Bool` records whether the remote model was
invoked at all. -/
def runMetricsAnalysis (mres : Except Unit WordMetrics) (text : String)
    (s : AppState) : AppState × Bool :=
  if jsTrim text = "" then
    ({ s with metrics := none, showMetrics := false }, false)
  else
    match mres with
    | Except.ok m =>
        ({ s with isAnalyzingMetrics := false, showMetrics := true, metrics := some m }, true)
    | Except.error _ =>
        ({ s with isAnalyzingMetrics := false, showMetrics := false,
                  error := some "Failed to analyze text metrics." }, true)

/-- `handleStartRecording` from `App.tsx`.  `permissionGranted` models the
outcome of `getUserMedia`: on denial the handler reports an error and
never enters the recording state. -/
def handleStartRecording (permissionGranted : Bool) (s : AppState) : AppState :=
  let s1 := { s with error := none, audioBlob := none, transcribedText := "",
                     sessionName := "", metrics := none, showMetrics := false,
                     audioUrl := "" }
  if permissionGranted then
    { s1 with isRecording := true }
  else
    { s1 with error := some "Could not start recording. Please grant microphone permissions." }

/-- `handleTranscribe` from `App.tsx`.  `encodeResult` models
`blobToBase64` (`none` = the promise rejected), `apiKey`/`remote` feed the
embedded `transcribeAudio`, and `mres` feeds the follow-up
`runMetricsAnalysis`.  The returned `Bool` records whether the handler
passed its guard and started a transcription (set `isTranscribing` and
issued the work). -/
def handleTranscribe (apiKey : Option String) (encodeResult : Option String)
    (remote : TRemote) (mres : Except Unit WordMetrics) (s : AppState) :
    AppState × Bool :=
  match s.audioBlob with
  | none => ({ s with error := some "No audio recorded to transcribe." }, false)
  | some blob =>
    let s1 := { s with isTranscribing := true, error := none, transcribedText := "",
                       copySuccess := "", metrics := none, showMetrics := false }
    match encodeResult with
    | none =>
        ({ s1 with error := some "Failed to transcribe audio. Please try again.",
                   isTranscribing := false }, true)
    | some b64 =>
      match transcribeAudio apiKey remote b64 blob.type s.targetLanguage with
      | Except.error _ =>
          ({ s1 with error := some "Failed to transcribe audio. Please try again.",
                     isTranscribing := false }, true)
      | Except.ok result =>
        let s2 := { s1 with transcribedText := result }
        let s3 := (runMetricsAnalysis mres result s2).1
        ({ s3 with isTranscribing := false }, true)

/-- `handleSaveSession` from `App.tsx`.  `nowId` models
`Date.now().toString()`, `nowLocale` the `toLocaleString()` timestamp used
for synthesized names, `nowIso` the ISO creation date. -/
def handleSaveSession (nowId nowLocale nowIso : String) (s : AppState) : AppState :=
  if jsTrim s.transcribedText = "" then
    { s with error := some "There is no transcribed text to save." }
  else
    let finalSessionName := jsTrim s.sessionName
    if finalSessionName ≠ "" ∧
        s.savedSessions.any (fun ss => ss.name == finalSessionName) then
      { s with error := some ("A session named \"" ++ finalSessionName ++
          "\" already exists. Please choose a different name.") }
    else
      let newSession : Session :=
        { id := nowId,
          name := if finalSessionName ≠ "" then finalSessionName
                  else "Session " ++ nowLocale,
          text := s.transcribedText,
          date := nowIso }
      { s with error := none,
               savedSessions := newSession :: s.savedSessions,
               sessionName := "",
               audioBlob := none,
               audioUrl := "" }

/-- `handleLoadSession` from `App.tsx`.  The second component records the
text handed to `runMetricsAnalysis` (`none` when the id was not found and
no analysis ran). -/
def handleLoadSession (mres : Except Unit WordMetrics) (id : String)
    (s : AppState) : AppState × Option String :=
  match s.savedSessions.find? (fun ss => ss.id == id) with
  | none => (s, none)
  | some sessionToLoad =>
    let s1 := { s with transcribedText := sessionToLoad.text,
                       sessionName := sessionToLoad.name,
                       audioBlob := none,
                       audioUrl := "",
                       error := none,
                       copySuccess := "" }
    ((runMetricsAnalysis mres sessionToLoad.text s1).1, some sessionToLoad.text)

/-- `handleDeleteSession` from `App.tsx`. -/
def handleDeleteSession (id : String) (s : AppState) : AppState :=
  { s with savedSessions := s.savedSessions.filter (fun ss => ss.id != id) }

/-- `handleSaveSessionName` (rename) from `App.tsx`; on success it also
performs `handleCancelEditingSession`. -/
def handleSaveSessionName (id : String) (s : AppState) : AppState :=
  let newName := jsTrim s.editingSessionName
  if newName = "" then
    { s with error := some "Session name cannot be empty." }
  else if s.savedSessions.any (fun ss => ss.id != id && ss.name == newName) then
    { s with error := some ("A session named \"" ++ newName ++
        "\" already exists. Please choose a different name.") }
  else
    { s with savedSessions := s.savedSessions.map
               (fun ss => if ss.id == id then { ss with name := newName } else ss),
             editingSessionId := none,
             editingSessionName := "",
             error := none }

/-- The lazy initializer of `useLocalStorage`: `stored` is
`localStorage.getItem(key)` (`none` = missing), `parse` models
`JSON.parse` (`Except.error` = it threw), `initialValue` the
caller-supplied default in producer form.  The second component counts how
often the producer was evaluated.  The function is total: no failure
escapes to the caller. -/
def useLocalStorageInit {α : Type} (stored : Option String)
    (parse : String → Except String α) (initialValue : Unit → α) : α × Nat :=
  match stored with
  | none => (initialValue (), 1)
  | some item =>
    if item = "" then (initialValue (), 1)
    else
      match parse item with
      | Except.ok v => (v, 0)
      | Except.error _ => (initialValue (), 1)

/-- The write-through effect of `useLocalStorage`: `serialized` models
`JSON.stringify(storedValue)` and `setItemOk` whether
`localStorage.setItem` succeeded; any failure is logged and swallowed.
Returns the unchanged in-memory value and the resulting store. -/
def useLocalStorageWrite {α : Type} (mem : α) (serialized : Except Unit String)
    (setItemOk : Bool) (store : List (String × String)) (key : String) :
    α × List (String × String) :=
  match serialized with
  | Except.error _ => (mem, store)
  | Except.ok sv =>
    if setItemOk then
      (mem, (key, sv) :: store.filter (fun kv => kv.1 != key))
    else
      (mem, store)

/-- A quiescent component state used to build concrete scenarios. -/
def baseState : AppState :=
  { isRecording := false, audioBlob := none, audioUrl := "",
    transcribedText := "", isTranscribing := false, targetLanguage := "English",
    sessionName := "", savedSessions := [], editingSessionId := none,
    editingSessionName := "", metrics := none, isAnalyzingMetrics := false,
    showMetrics := false, error := none, copySuccess := "" }

/-- Concrete finalized recording used in scenarios. -/
def sampleBlob : Blob := { data := "AUDIODATA", type := "audio/webm" }

/-- Concrete metrics payload used in scenarios. -/
def sampleMetrics : WordMetrics :=
  { wordCount := 5, characterCount := 20, verbCount := 1, nounCount := 2,
    adjectiveCount := 0, conjunctionCount := 0, profanityCount := 0 }

/-- A concrete `JSON.parse` model used to instantiate the store lemmas. -/
def sampleParse : String → Except String Nat :=
  fun s => if s = "7" then Except.ok 7 else Except.error s

/-- Mapping each element of a list through a function yields the
element-wise relation between the original list and its image. -/
theorem forall2_map_self {α : Type} (f : α → α) (P : α → α → Prop) (l : List α)
    (h : ∀ x ∈ l, P x (f x)) : List.Forall₂ P l (l.map f) := by
  induction l with
  | nil => exact List.Forall₂.nil
  | cons a t ih =>
      exact List.Forall₂.cons (h a (by simp))
        (ih (fun x hx => h x (by simp [hx])))

/-- `runMetricsAnalysis` never touches the session collection, the
transcript text or the transient session-name field. -/
theorem runMetricsAnalysis_frame (mres : Except Unit WordMetrics) (text : String)
    (s : AppState) :
    (runMetricsAnalysis mres text s).1.savedSessions = s.savedSessions
    ∧ (runMetricsAnalysis mres text s).1.transcribedText = s.transcribedText
    ∧ (runMetricsAnalysis mres text s).1.sessionName = s.sessionName := by
  unfold runMetricsAnalysis
  split
  · simp
  · cases mres <;> simp

/-- C7: text that trims to empty makes the metrics path clear the
displayed metrics and return without a remote call and without touching
the error slot, while text that is non-empty after trimming does invoke
the remote model. -/
theorem c7_metrics_empty_short_circuit (mres : Except Unit WordMetrics)
    (tEmpty tFull : String) (s : AppState)
    (hE : jsTrim tEmpty = "") (hF : jsTrim tFull ≠ "") :
    runMetricsAnalysis mres tEmpty s = ({ s with metrics := none, showMetrics := false }, false)
    ∧ (runMetricsAnalysis mres tFull s).2 = true := by
  constructor
  · simp [runMetricsAnalysis, hE]
  · cases mres <;> simp [runMetricsAnalysis, hF]

/-- C7 witness: the two text shapes at concrete inputs. -/
theorem c7_metrics_empty_short_circuit_witness :
    runMetricsAnalysis (Except.error ()) "  " baseState =
      ({ baseState with metrics := none, showMetrics := false }, false)
    ∧ (runMetricsAnalysis (Except.error ()) "hi" baseState).2 = true :=
  c7_metrics_empty_short_circuit (Except.error ()) "  " "hi" baseState
    (by decide) (by decide)

/-- C9: deleting keeps exactly the sessions whose id differs from the
requested one, never reports an error, and is a no-op on a collection
that contains no session with that id. -/
theorem c9_delete_exact (id : String) (s s2 : AppState) (x : Session)
    (habs : ∀ ss ∈ s2.savedSessions, ss.id ≠ id) :
    (x ∈ (handleDeleteSession id s).savedSessions ↔ x ∈ s.savedSessions ∧ x.id ≠ id)
    ∧ (handleDeleteSession id s).error = s.error
    ∧ handleDeleteSession id s2 = s2 := by
  refine ⟨?_, rfl, ?_⟩
  · simp [handleDeleteSession, List.mem_filter]
  · have hf : s2.savedSessions.filter (fun ss => ss.id != id) = s2.savedSessions := by
      rw [List.filter_eq_self]
      intro a ha
      simpa using habs a ha
    simp [handleDeleteSession, hf]

/-- C9 witness: deleting an absent id from a concrete one-session
collection. -/
theorem c9_delete_exact_witness :
    let st := { baseState with savedSessions := [⟨"1", "A", "t", "d"⟩] }
    (⟨"1", "A", "t", "d"⟩ ∈ (handleDeleteSession "2" st).savedSessions ↔
      ⟨"1", "A", "t", "d"⟩ ∈ st.savedSessions ∧ "1" ≠ "2")
    ∧ (handleDeleteSession "2" st).error = st.error
    ∧ handleDeleteSession "2" st = st :=
  c9_delete_exact "2" _ _ ⟨"1", "A", "t", "d"⟩ (by decide)

/-- C8: loading a session found by id leaves the stored collection (and
hence every stored session's fields) untouched, copies the stored text
and name into the transient editing state, and hands exactly that text to
the metrics analysis. -/
theorem c8_load_read_only (mres : Except Unit WordMetrics) (id : String)
    (s : AppState) (sess : Session)
    (h : s.savedSessions.find? (fun ss => ss.id == id) = some sess) :
    (handleLoadSession mres id s).1.savedSessions = s.savedSessions
    ∧ (handleLoadSession mres id s).1.transcribedText = sess.text
    ∧ (handleLoadSession mres id s).1.sessionName = sess.name
    ∧ (handleLoadSession mres id s).2 = some sess.text := by
  unfold handleLoadSession
  rw [h]
  have hframe := runMetricsAnalysis_frame mres sess.text
    { s with transcribedText := sess.text, sessionName := sess.name,
             audioBlob := none, audioUrl := "", error := none, copySuccess := "" }
  exact ⟨hframe.1, by rw [hframe.2.1], by rw [hframe.2.2], rfl⟩

/-- C8 witness: loading the only session of a concrete collection. -/
theorem c8_load_read_only_witness :
    let st := { baseState with savedSessions := [⟨"1", "A", "hello", "d"⟩] }
    (handleLoadSession (Except.ok sampleMetrics) "1" st).1.savedSessions = st.savedSessions
    ∧ (handleLoadSession (Except.ok sampleMetrics) "1" st).1.transcribedText = "hello"
    ∧ (handleLoadSession (Except.ok sampleMetrics) "1" st).1.sessionName = "A"
    ∧ (handleLoadSession (Except.ok sampleMetrics) "1" st).2 = some "hello" :=
  c8_load_read_only (Except.ok sampleMetrics) "1" _ ⟨"1", "A", "hello", "d"⟩ (by decide)

/-- C6: the store's read returns the caller-supplied default, evaluating a
producer default exactly once, when the stored value is missing, empty or
fails to parse; when the stored value parses, the producer is never
evaluated; and a failed write (serialization or storage error) leaves the
in-memory value untouched.  Both operations are total functions: no
failure propagates to the caller. -/
theorem c6_local_storage (α : Type) (parse : String → Except String α)
    (initialValue : Unit → α) (item good : String) (v : α) (e : String)
    (hne : item ≠ "") (hbad : parse item = Except.error e)
    (hgne : good ≠ "") (hv : parse good = Except.ok v)
    (mem : α) (serialized : Except Unit String) (setItemOk : Bool)
    (store : List (String × String)) (key : String) :
    useLocalStorageInit none parse initialValue = (initialValue (), 1)
    ∧ useLocalStorageInit (some "") parse initialValue = (initialValue (), 1)
    ∧ useLocalStorageInit (some item) parse initialValue = (initialValue (), 1)
    ∧ useLocalStorageInit (some good) parse initialValue = (v, 0)
    ∧ (useLocalStorageWrite mem serialized setItemOk store key).1 = mem := by
  refine ⟨rfl, rfl, ?_, ?_, ?_⟩
  · simp [useLocalStorageInit, hne, hbad]
  · simp [useLocalStorageInit, hgne, hv]
  · unfold useLocalStorageWrite
    cases serialized with
    | error _ => rfl
    | ok sv => cases setItemOk <;> rfl

/-- C6 witness: a concrete parse function with a corrupt and a good stored
value, and a failing write. -/
theorem c6_local_storage_witness :
    useLocalStorageInit none sampleParse (fun _ => 0) = (0, 1)
    ∧ useLocalStorageInit (some "") sampleParse (fun _ => 0) = (0, 1)
    ∧ useLocalStorageInit (some "oops") sampleParse (fun _ => 0) = (0, 1)
    ∧ useLocalStorageInit (some "7") sampleParse (fun _ => 0) = (7, 0)
    ∧ (useLocalStorageWrite 3 (Except.error ()) false [] "k").1 = 3 :=
  c6_local_storage Nat sampleParse (fun _ => 0) "oops" "7" 7 "oops"
    (by decide) rfl (by decide) rfl
    3 (Except.error ()) false [] "k"

/-- C4: renaming succeeds exactly when the new name trims to a non-empty
string and no session with a different id already carries that trimmed
name; on success every session keeps its id, text and date, sessions with
a different id keep their name, and the target (including a rename to its
own current name) receives the trimmed new name; on failure an error is
reported and the collection is entirely unchanged. -/
theorem c4_rename_iff (id idf : String) (s sf : AppState)
    (hn : jsTrim s.editingSessionName ≠ "")
    (hd : s.savedSessions.any
      (fun ss => ss.id != id && ss.name == jsTrim s.editingSessionName) = false)
    (hfail : jsTrim sf.editingSessionName = "" ∨
      sf.savedSessions.any
        (fun ss => ss.id != idf && ss.name == jsTrim sf.editingSessionName) = true) :
    (handleSaveSessionName id s).error = none
    ∧ List.Forall₂ (fun old new =>
        new.id = old.id ∧ new.text = old.text ∧ new.date = old.date ∧
        new.name = (if old.id = id then jsTrim s.editingSessionName else old.name))
        s.savedSessions (handleSaveSessionName id s).savedSessions
    ∧ (handleSaveSessionName idf sf).error ≠ none
    ∧ (handleSaveSessionName idf sf).savedSessions = sf.savedSessions := by
  refine ⟨?_, ?_, ?_, ?_⟩
  · simp [handleSaveSessionName, hn, hd]
  · simp only [handleSaveSessionName, hn, hd, if_false, Bool.false_eq_true,
      if_neg (fun h => hn h)]
    refine forall2_map_self _ _ _ (fun x _ => ?_)
    by_cases hx : x.id = id
    · simp [hx]
    · simp [hx]
  · rcases hfail with h | h
    · simp [handleSaveSessionName, h]
    · by_cases hze : jsTrim sf.editingSessionName = ""
      · simp [handleSaveSessionName, hze]
      · simp [handleSaveSessionName, hze, h]
  · rcases hfail with h | h
    · simp [handleSaveSessionName, h]
    · by_cases hze : jsTrim sf.editingSessionName = ""
      · simp [handleSaveSessionName, hze]
      · simp [handleSaveSessionName, hze, h]

/-- C4 witness: a successful rename of the first session to a fresh name
and a failed rename to the other session's name, on a concrete
two-session collection. -/
theorem c4_rename_iff_witness :
    let st := { baseState with
      savedSessions := [⟨"1", "A", "ta", "da"⟩, ⟨"2", "B", "tb", "db"⟩],
      editingSessionName := " C " }
    let stf := { baseState with
      savedSessions := [⟨"1", "A", "ta", "da"⟩, ⟨"2", "B", "tb", "db"⟩],
      editingSessionName := "B" }
    (handleSaveSessionName "1" st).error = none
    ∧ List.Forall₂ (fun old new =>
        new.id = old.id ∧ new.text = old.text ∧ new.date = old.date ∧
        new.name = (if old.id = "1" then jsTrim st.editingSessionName else old.name))
        st.savedSessions (handleSaveSessionName "1" st).savedSessions
    ∧ (handleSaveSessionName "1" stf).error ≠ none
    ∧ (handleSaveSessionName "1" stf).savedSessions = stf.savedSessions :=
  c4_rename_iff "1" "1" _ _ (by decide) (by decide) (Or.inr (by decide))

/-- A successful save (one whose resulting error slot is empty) prepends
exactly the session built from the current inputs. -/
theorem handleSaveSession_success_shape (nowId nowLocale nowIso : String) (s : AppState)
    (h : (handleSaveSession nowId nowLocale nowIso s).error = none) :
    (handleSaveSession nowId nowLocale nowIso s).savedSessions =
      ({ id := nowId,
         name := if jsTrim s.sessionName ≠ "" then jsTrim s.sessionName
                 else "Session " ++ nowLocale,
         text := s.transcribedText, date := nowIso } : Session) :: s.savedSessions := by
  by_cases h1 : jsTrim s.transcribedText = ""
  · simp [handleSaveSession, h1] at h
  · by_cases h2 : ¬jsTrim s.sessionName = "" ∧
        ∃ x ∈ s.savedSessions, x.name = jsTrim s.sessionName
    · simp [handleSaveSession, h1, h2.1, h2.2] at h
    · simp [handleSaveSession, h1, h2]

/-- C3: every successful save prepends exactly one new session carrying
the current transcript verbatim as its text: with a requested name that is
non-empty after trimming the new session carries that trimmed name, and
with a requested name that trims to empty it carries the synthesized name
built from the current timestamp. -/
theorem c3_save_prepends (nowId nowLocale nowIso : String) (s se : AppState)
    (h : (handleSaveSession nowId nowLocale nowIso s).error = none)
    (hn : jsTrim s.sessionName ≠ "")
    (he : (handleSaveSession nowId nowLocale nowIso se).error = none)
    (hne : jsTrim se.sessionName = "") :
    (handleSaveSession nowId nowLocale nowIso s).savedSessions =
      ({ id := nowId, name := jsTrim s.sessionName, text := s.transcribedText,
         date := nowIso } : Session) :: s.savedSessions
    ∧ (handleSaveSession nowId nowLocale nowIso se).savedSessions =
      ({ id := nowId, name := "Session " ++ nowLocale, text := se.transcribedText,
         date := nowIso } : Session) :: se.savedSessions := by
  constructor
  · rw [handleSaveSession_success_shape nowId nowLocale nowIso s h]
    simp [hn]
  · rw [handleSaveSession_success_shape nowId nowLocale nowIso se he]
    simp [hne]

/-- C3 witness: a save with the unique name `" A "` and a save with the
empty name, both on concrete states with transcript `"hello"`. -/
theorem c3_save_prepends_witness :
    (handleSaveSession "9" "LOC" "ISO"
      { baseState with transcribedText := "hello", sessionName := " A " }).savedSessions =
      [⟨"9", "A", "hello", "ISO"⟩]
    ∧ (handleSaveSession "9" "LOC" "ISO"
      { baseState with transcribedText := "hello" }).savedSessions =
      [⟨"9", "Session LOC", "hello", "ISO"⟩] :=
  c3_save_prepends "9" "LOC" "ISO" _ _ (by decide) (by decide) (by decide) (by decide)

/-- Concrete state with a finalized recording, used for transcription
scenarios. -/
def readyState : AppState := { baseState with audioBlob := some sampleBlob }

/-- Concrete state with a finalized recording while a transcription is
already in flight. -/
def inFlightState : AppState :=
  { baseState with audioBlob := some sampleBlob, isTranscribing := true }

/-- Concrete state whose collection holds a session named `"A "` and whose
requested save name is the identical string `"A "`. -/
def dupNameState : AppState :=
  { baseState with transcribedText := "hello", sessionName := "A ",
                   savedSessions := [⟨"1", "A ", "old", "2024-01-01"⟩] }

/-- Concrete state whose requested save name is the blank string `" "`. -/
def blankNameState : AppState :=
  { baseState with transcribedText := "hello", sessionName := " " }

/-- C1 counterexample: with a finalized recording present and the remote
model call failing with a network error, the transcribe operation leaves
no error message (the error slot is empty) and stores the failure text as
a non-empty transcript — the failure is returned as an ordinary
successful text result, contradicting the claim. -/
theorem c1_counterexample :
    ((handleTranscribe (some "key") (some "b64") (TRemote.errMsg "network error")
        (Except.ok sampleMetrics) readyState).1.error = none)
    ∧ ((handleTranscribe (some "key") (some "b64") (TRemote.errMsg "network error")
        (Except.ok sampleMetrics) readyState).1.transcribedText =
        "Transcription failed: network error") := by decide

/-- C1 (amended): when the remote model call fails, the transcription
client catches the failure and returns the descriptive string as an
ordinary result, which the controller stores as the transcript with no
error surfaced; the generic failure message with an empty transcript
arises only when an exception crosses the client boundary — a missing API
key or an audio-encoding failure. -/
theorem c1_amended (key b64 msg : String) (m : WordMetrics) (s : AppState)
    (blob : Blob) (hb : s.audioBlob = some blob) :
    ((handleTranscribe (some key) (some b64) (TRemote.errMsg msg)
        (Except.ok m) s).1.transcribedText = "Transcription failed: " ++ msg)
    ∧ ((handleTranscribe (some key) (some b64) (TRemote.errMsg msg)
        (Except.ok m) s).1.error = none)
    ∧ ((handleTranscribe none (some b64) (TRemote.ok "t")
        (Except.ok m) s).1.error = some "Failed to transcribe audio. Please try again.")
    ∧ ((handleTranscribe none (some b64) (TRemote.ok "t")
        (Except.ok m) s).1.transcribedText = "")
    ∧ ((handleTranscribe (some key) none (TRemote.ok "t")
        (Except.ok m) s).1.error = some "Failed to transcribe audio. Please try again.")
    ∧ ((handleTranscribe (some key) none (TRemote.ok "t")
        (Except.ok m) s).1.transcribedText = "") := by
  refine ⟨?_, ?_, ?_, ?_, ?_, ?_⟩ <;>
    simp only [handleTranscribe, hb, transcribeAudio, runMetricsAnalysis] <;>
    split <;> simp

/-- C1 amended witness: the three failure shapes at a concrete state. -/
theorem c1_amended_witness :
    ((handleTranscribe (some "key") (some "b64") (TRemote.errMsg "boom")
        (Except.ok sampleMetrics) readyState).1.transcribedText =
        "Transcription failed: boom")
    ∧ ((handleTranscribe (some "key") (some "b64") (TRemote.errMsg "boom")
        (Except.ok sampleMetrics) readyState).1.error = none)
    ∧ ((handleTranscribe none (some "b64") (TRemote.ok "t")
        (Except.ok sampleMetrics) readyState).1.error =
        some "Failed to transcribe audio. Please try again.")
    ∧ ((handleTranscribe none (some "b64") (TRemote.ok "t")
        (Except.ok sampleMetrics) readyState).1.transcribedText = "")
    ∧ ((handleTranscribe (some "key") none (TRemote.ok "t")
        (Except.ok sampleMetrics) readyState).1.error =
        some "Failed to transcribe audio. Please try again.")
    ∧ ((handleTranscribe (some "key") none (TRemote.ok "t")
        (Except.ok sampleMetrics) readyState).1.transcribedText = "") :=
  c1_amended "key" "b64" "boom" sampleMetrics readyState sampleBlob rfl

/-- C2 counterexample: the requested name `"A "` is non-empty and equals
an existing session's name character for character, yet the save does not
fail: it reports no error and prepends a new session (the duplicate check
compares the trimmed name `"A"` against stored names). -/
theorem c2_counterexample :
    dupNameState.sessionName ≠ ""
    ∧ dupNameState.savedSessions.any
        (fun ss => ss.name == dupNameState.sessionName) = true
    ∧ (handleSaveSession "99" "LOC" "ISO" dupNameState).error = none
    ∧ (handleSaveSession "99" "LOC" "ISO" dupNameState).savedSessions ≠
        dupNameState.savedSessions := by decide

/-- C2 (amended): whenever the requested name trims to a non-empty string
that equals (case-sensitively) the name of some existing session, a save
invoked with a transcript that is non-empty after trimming fails with a
duplicate-name error and leaves the entire state — in particular the
session collection — unchanged except for the error slot. -/
theorem c2_amended (nowId nowLocale nowIso : String) (s : AppState)
    (ht : jsTrim s.transcribedText ≠ "")
    (hn : jsTrim s.sessionName ≠ "")
    (hd : s.savedSessions.any (fun ss => ss.name == jsTrim s.sessionName) = true) :
    handleSaveSession nowId nowLocale nowIso s =
      { s with error := some ("A session named \"" ++ jsTrim s.sessionName ++
          "\" already exists. Please choose a different name.") } := by
  simp only [handleSaveSession, if_neg ht]
  rw [if_pos]
  exact ⟨hn, hd⟩

/-- C2 amended witness: saving under the already-used trimmed name `"A"`
fails and changes only the error slot. -/
theorem c2_amended_witness :
    handleSaveSession "99" "LOC" "ISO"
      { baseState with transcribedText := "hello", sessionName := " A ",
                       savedSessions := [⟨"1", "A", "old", "d"⟩] } =
      { baseState with transcribedText := "hello", sessionName := " A ",
                       savedSessions := [⟨"1", "A", "old", "d"⟩],
                       error := some "A session named \"A\" already exists. Please choose a different name." } :=
  c2_amended "99" "LOC" "ISO" _ (by decide) (by decide) (by decide)

/-- C5 counterexample: with a transcription already in flight
(`isTranscribing = true`) but a finalized recording still present,
invoking the transcribe handler passes its guard and starts a new
transcription — the in-flight exclusion is not enforced in the controller
logic. -/
theorem c5_counterexample :
    inFlightState.isTranscribing = true
    ∧ (handleTranscribe (some "key") (some "b64") (TRemote.ok "hi")
        (Except.ok sampleMetrics) inFlightState).2 = true := by decide

/-- C5 (amended): the controller itself enforces only the
finalized-recording requirement: with no finalized recording the
transcribe handler starts nothing and reports an error, and since
starting a recording clears the finalized recording, invoking transcribe
on any state produced by the start-recording handler starts nothing
either; but with a finalized recording present the handler starts a
transcription regardless of one already being in flight — that exclusion
lives only in the disabled UI affordance. -/
theorem c5_amended (apiKey encodeResult : Option String) (remote : TRemote)
    (mres : Except Unit WordMetrics) (s srec sfly : AppState) (perm : Bool)
    (b : Blob) (hnone : s.audioBlob = none) (hfly : sfly.audioBlob = some b) :
    (handleTranscribe apiKey encodeResult remote mres s).2 = false
    ∧ (handleTranscribe apiKey encodeResult remote mres s).1.error =
        some "No audio recorded to transcribe."
    ∧ (handleStartRecording perm srec).audioBlob = none
    ∧ (handleTranscribe apiKey encodeResult remote mres
        (handleStartRecording perm srec)).2 = false
    ∧ (handleTranscribe apiKey encodeResult remote mres sfly).2 = true := by
  have hrec : (handleStartRecording perm srec).audioBlob = none := by
    unfold handleStartRecording
    cases perm <;> simp
  refine ⟨?_, ?_, hrec, ?_, ?_⟩
  · simp [handleTranscribe, hnone]
  · simp [handleTranscribe, hnone]
  · simp [handleTranscribe, hrec]
  · simp only [handleTranscribe, hfly]
    split <;> [skip; split] <;> simp

/-- C5 amended witness: the guard shapes at concrete states. -/
theorem c5_amended_witness :
    (handleTranscribe (some "key") (some "b64") (TRemote.ok "hi")
        (Except.ok sampleMetrics) baseState).2 = false
    ∧ (handleTranscribe (some "key") (some "b64") (TRemote.ok "hi")
        (Except.ok sampleMetrics) baseState).1.error =
        some "No audio recorded to transcribe."
    ∧ (handleStartRecording true readyState).audioBlob = none
    ∧ (handleTranscribe (some "key") (some "b64") (TRemote.ok "hi")
        (Except.ok sampleMetrics) (handleStartRecording true readyState)).2 = false
    ∧ (handleTranscribe (some "key") (some "b64") (TRemote.ok "hi")
        (Except.ok sampleMetrics) inFlightState).2 = true :=
  c5_amended (some "key") (some "b64") (TRemote.ok "hi") (Except.ok sampleMetrics)
    baseState readyState inFlightState true sampleBlob rfl rfl

/-- C10 counterexample: with transcript `"hello"` and the blank requested
name `" "`, the save succeeds (no error) but the stored session's name is
the synthesized `"Session LOC"`, not the trimmed requested name `""`. -/
theorem c10_counterexample :
    (handleSaveSession "99" "LOC" "ISO" blankNameState).error = none
    ∧ (handleSaveSession "99" "LOC" "ISO" blankNameState).savedSessions.map
        Session.name ≠ [jsTrim blankNameState.sessionName] := by decide

/-- C10 (amended): a save whose transcript trims to empty is rejected
with an error message and changes nothing but the error slot; a
successful save whose requested name is non-empty after trimming stores
the trimmed requested name, and every successful save — whether the
requested name trims to non-empty or to empty — stores the raw untrimmed
transcript text. -/
theorem c10_amended (nowId nowLocale nowIso : String) (s sb st : AppState)
    (hempty : jsTrim st.transcribedText = "")
    (h : (handleSaveSession nowId nowLocale nowIso s).error = none)
    (hn : jsTrim s.sessionName ≠ "")
    (hb : (handleSaveSession nowId nowLocale nowIso sb).error = none)
    (hbn : jsTrim sb.sessionName = "") :
    handleSaveSession nowId nowLocale nowIso st =
      { st with error := some "There is no transcribed text to save." }
    ∧ (handleSaveSession nowId nowLocale nowIso s).savedSessions.head? =
        some { id := nowId, name := jsTrim s.sessionName,
               text := s.transcribedText, date := nowIso }
    ∧ (handleSaveSession nowId nowLocale nowIso s).savedSessions.tail =
        s.savedSessions
    ∧ (handleSaveSession nowId nowLocale nowIso sb).savedSessions.head?.map
        Session.text = some sb.transcribedText
    ∧ (handleSaveSession nowId nowLocale nowIso sb).savedSessions.head?.map
        Session.name = some ("Session " ++ nowLocale)
    ∧ (handleSaveSession nowId nowLocale nowIso sb).savedSessions.tail =
        sb.savedSessions := by
  refine ⟨?_, ?_, ?_, ?_, ?_, ?_⟩
  · simp [handleSaveSession, hempty]
  · rw [handleSaveSession_success_shape nowId nowLocale nowIso s h]
    simp [hn]
  · rw [handleSaveSession_success_shape nowId nowLocale nowIso s h]
    rfl
  · rw [handleSaveSession_success_shape nowId nowLocale nowIso sb hb]
    rfl
  · rw [handleSaveSession_success_shape nowId nowLocale nowIso sb hb]
    simp [hbn]
  · rw [handleSaveSession_success_shape nowId nowLocale nowIso sb hb]
    rfl

/-- C10 amended witness: an empty-transcript save is rejected; a
successful save with name `" A "` and transcript `" hello "` stores name
`"A"` with the raw text `" hello "`; and a successful save with the blank
name `" "` and the same transcript also stores the raw text `" hello "`. -/
theorem c10_amended_witness :
    handleSaveSession "99" "LOC" "ISO" { baseState with transcribedText := "  " } =
      { baseState with transcribedText := "  ",
                       error := some "There is no transcribed text to save." }
    ∧ (handleSaveSession "99" "LOC" "ISO"
        { baseState with transcribedText := " hello ",
                         sessionName := " A " }).savedSessions.head? =
        some ⟨"99", "A", " hello ", "ISO"⟩
    ∧ (handleSaveSession "99" "LOC" "ISO"
        { baseState with transcribedText := " hello ",
                         sessionName := " A " }).savedSessions.tail = []
    ∧ (handleSaveSession "99" "LOC" "ISO"
        { baseState with transcribedText := " hello ",
                         sessionName := " " }).savedSessions.head?.map
        Session.text = some " hello "
    ∧ (handleSaveSession "99" "LOC" "ISO"
        { baseState with transcribedText := " hello ",
                         sessionName := " " }).savedSessions.head?.map
        Session.name = some "Session LOC"
    ∧ (handleSaveSession "99" "LOC" "ISO"
        { baseState with transcribedText := " hello ",
                         sessionName := " " }).savedSessions.tail = [] :=
  c10_amended "99" "LOC" "ISO"
    { baseState with transcribedText := " hello ", sessionName := " A " }
    { baseState with transcribedText := " hello ", sessionName := " " }
    { baseState with transcribedText := "  " }
    (by decide) (by decide) (by decide) (by decide) (by decide)
